import Mathlib

/-!
Shallow embedding of the client-side data-access layer of the lead-management
application, translated from `src/src/contexts/LeadDataContext.jsx`.

Modelling conventions:
* JavaScript objects become Lean structures; `null`/`undefined`-able fields
  become `Option`.
* The ambient React state (`leads`, `contacts`, `leadsCache`, `contactsCache`,
  `error`) becomes an explicit `Ctx` record threaded through each operation;
  `setX` calls become functional updates.  The `loading` flag is toggled on and
  back off inside every operation and carries no information at return time, so
  it is not modelled.
* `Date.now()` becomes an explicit `now : Int` parameter (epoch milliseconds).
* The Supabase collaborator becomes two parameters: a `Bool` saying whether the
  client was initialised (`supabase !== null`) and an `Except String _` carrying
  either the rows the backend would return for the issued query or an error
  message (the `catch` paths).  Query building (`.eq`, `.or(ilike)`) is modelled
  as an explicit constraint list evaluated against the backend's row list; the
  row list parameter is taken in the order the backend would return it
  (`created_at` descending), since the `eq` filters commute with ordering.
* JS `Map` becomes an association list with JS-`Map` get/set/delete semantics.
* JS truthiness on strings (`filters.status`, `updates.name`, `leadData.status`)
  is modelled explicitly: a string field is "truthy" when present and nonempty.
-/

namespace LeadData

/-- A row of the `users` table / the authenticated actor: the code only reads
`id` and `role` (destructured as `const { role, id: userId } = currentUser`). -/
structure User where
  id : String
  role : String
deriving DecidableEq

/-- The four action strings passed to `hasPermission`. -/
inductive Action
  | view
  | create
  | edit
  | delete
deriving DecidableEq

/-- A lead record as held in the Record Store (the `leads` React state),
with the snake_case fields of the `leads` table.  The derived presentation
fields (`customFields`, `createdAt`, `updatedAt`) duplicate `custom_fields` /
`created_at` / `updated_at` and are omitted; timestamps are epoch millis. -/
structure Lead where
  id : String
  name : String
  email : String
  phone : String
  status : String
  stage_id : String
  pipeline_id : String
  assigned_to : String
  org_id : String
  custom_fields : List (String × String)
  created_at : Int
  updated_at : Int
deriving DecidableEq

/-- A contact record (row of the `contacts` table). -/
structure Contact where
  id : String
  lead_id : String
  name : String
  email : Option String
  phone : Option String
  designation : Option String
  notes : Option String
  created_by : String
  created_at : Int
  updated_at : Int
deriving DecidableEq

/-- `hasPermission(action, lead = null)` from `LeadDataContext.jsx` lines
143-176: the closure reads `currentUser`, which we pass explicitly. -/
def hasPermission (currentUser : Option User) (action : Action)
    (lead : Option Lead := none) : Bool :=
  match currentUser with
  | none => false
  | some u =>
    match u.role with
    | "Admin" => true
    | "Manager" =>
      -- view/create: true; edit/delete: true (blanket grant); fall-through: true
      if action == Action.view || action == Action.create then true
      else if action == Action.edit || action == Action.delete then true
      else true
    | "Sales Rep" =>
      if action == Action.view then
        -- `!lead || lead.assigned_to === userId`
        match lead with
        | none => true
        | some l => l.assigned_to == u.id
      else if action == Action.create then true
      else if action == Action.edit || action == Action.delete then
        -- `lead && lead.assigned_to === userId`
        match lead with
        | none => false
        | some l => l.assigned_to == u.id
      else false
    | _ => false

/-- JS `Map.prototype.get` on an association list. -/
def mapGet {α : Type} (m : List (String × α)) (k : String) : Option α :=
  (m.find? (fun p => p.1 == k)).map (fun p => p.2)

/-- JS `Map.prototype.set`: replace in place if the key exists, else append. -/
def mapSet {α : Type} (m : List (String × α)) (k : String) (v : α) :
    List (String × α) :=
  if m.any (fun p => p.1 == k) then
    m.map (fun p => if p.1 == k then (k, v) else p)
  else m ++ [(k, v)]

/-- JS `Map.prototype.delete`. -/
def mapDelete {α : Type} (m : List (String × α)) (k : String) :
    List (String × α) :=
  m.filter (fun p => p.1 != k)

/-- Does `pat` occur at the start of `s` (character lists)? -/
def startsWithList : List Char → List Char → Bool
  | [], _ => true
  | _ :: _, [] => false
  | a :: as, b :: bs => a == b && startsWithList as bs

/-- Does `pat` occur anywhere in `s` (character lists)? -/
def occursInList (pat : List Char) : List Char → Bool
  | [] => pat.isEmpty
  | b :: bs => startsWithList pat (b :: bs) || occursInList pat bs

/-- JS `String.prototype.includes`. -/
def strIncludes (s pat : String) : Bool :=
  occursInList pat.data s.data

/-- A filter object, as the ordered key-value entries of the JS object literal
passed to `fetchLeads` (JS objects preserve insertion order; keys are assumed
distinct, as repeated literal keys collapse).  The code reads the fields
`status`, `assigned_to`, `pipeline_id` and `search` off it and serializes the
whole object with `JSON.stringify` as the cache key. -/
def Filters : Type := List (String × String)

instance : DecidableEq Filters := inferInstanceAs (DecidableEq (List (String × String)))

/-- Reading a field off the filter object together with JS truthiness:
a missing field and the empty string are both falsy. -/
def truthyGet (fs : Filters) (k : String) : Option String :=
  match mapGet fs k with
  | some v => if v = "" then none else some v
  | none => none

/-- Character-level body of `JSON.stringify({k1: v1, ...})` for one pair:
`"k":"v"` (string values, no escape characters assumed). -/
def encPairChars (k v : String) : List Char :=
  '"' :: k.data ++ '"' :: ':' :: '"' :: v.data ++ ['"']

/-- Character-level comma-separated pair list of `JSON.stringify`. -/
def jsonPairsChars : List (String × String) → List Char
  | [] => []
  | [(k, v)] => encPairChars k v
  | (k, v) :: rest => encPairChars k v ++ ',' :: jsonPairsChars rest

/-- `JSON.stringify(filters)`: the cache key computed for a list query
(line 341).  Serializes the entries in insertion order. -/
def jsonStringifyObj (fs : Filters) : String :=
  ⟨'{' :: jsonPairsChars fs ++ ['}']⟩

/-- Payload of a `leadsCache` entry: the same JS `Map` stores list payloads
under `JSON.stringify(filters)` keys and single-lead payloads under
`lead_<id>` keys.  The two key shapes are disjoint (a stringify key starts
with a brace, a single-record key with `lead_`). -/
inductive CachePayload
  | list (ls : List Lead)
  | single (l : Lead)
deriving DecidableEq

/-- One `leadsCache` entry: `{ data, timestamp }`. -/
structure LeadsCacheEntry where
  data : CachePayload
  timestamp : Int
deriving DecidableEq

/-- One `contactsCache` entry: `{ data, timestamp }`. -/
structure ContactsCacheEntry where
  data : List Contact
  timestamp : Int
deriving DecidableEq

/-- The React state threaded through the operations. -/
structure Ctx where
  leads : List Lead
  contacts : List Contact
  leadsCache : List (String × LeadsCacheEntry)
  contactsCache : List (String × ContactsCacheEntry)
  error : Option String
deriving DecidableEq

/-- `CACHE_EXPIRY = 5 * 60 * 1000` (line 62). -/
def CACHE_EXPIRY : Int := 5 * 60 * 1000

/-- `isCacheValid(timestamp)` (lines 208-210):
`timestamp && (Date.now() - timestamp) < CACHE_EXPIRY`; the leading truthiness
test makes a zero timestamp invalid. -/
def isCacheValid (now timestamp : Int) : Bool :=
  timestamp != 0 && now - timestamp < CACHE_EXPIRY

/-- First entry of the `mockLeads` seed dataset (lines 87-103). -/
def mockLead1 : Lead :=
  { id := "a1b2c3d4-e5f6-7890-abcd-ef1234567890"
    , name := "Mohammed Yousuf"
    , email := "yousuf@example.com"
    , phone := "+911234567890"
    , status := "New"
    , stage_id := "g9j1l3i2-2m6k-4j1j-j2g0-9hg43l65g7i8"
    , pipeline_id := "c5e6h8f0-0i4g-4f9f-f0c8-5fe21h43e5g6"
    , assigned_to := "f9b2e5c7-7f1d-4c6c-c795-2cb98e10b2d3"
    , org_id := "org-1"
    , custom_fields := [("industry", "Retail"), ("source", "LinkedIn"), ("budget", "$50,000")]
  , created_at := 1735689600000
  , updated_at := 1735689600000 }

/-- Second entry of the `mockLeads` seed dataset (lines 104-120). -/
def mockLead2 : Lead :=
  { id := "b2c3d4e5-f6g7-8901-bcde-f23456789012"
    , name := "Aarav Sinha"
    , email := "aarav@client.com"
    , phone := "+911234560987"
    , status := "Qualified"
    , stage_id := "h0k2m4j3-3n7l-4k2k-k3h1-0ih54m76h8j9"
    , pipeline_id := "c5e6h8f0-0i4g-4f9f-f0c8-5fe21h43e5g6"
    , assigned_to := "e8a1d4a6-6e0c-4b5b-b684-1ba87d09a1c2"
    , org_id := "org-1"
    , custom_fields := [("industry", "Technology"), ("source", "Website"), ("budget", "$75,000")]
  , created_at := 1735776000000
  , updated_at := 1736035200000 }

/-- Third entry of the `mockLeads` seed dataset (lines 121-137). -/
def mockLead3 : Lead :=
  { id := "c3d4e5f6-g7h8-9012-cdef-345678901234"
    , name := "Priya Sharma"
    , email := "priya@business.com"
    , phone := "+911234567123"
    , status := "Contacted"
    , stage_id := "h0k2m4j3-3n7l-4k2k-k3h1-0ih54m76h8j9"
    , pipeline_id := "c5e6h8f0-0i4g-4f9f-f0c8-5fe21h43e5g6"
    , assigned_to := "a3c4f6d8-8g2e-4d7d-d8a6-3dc09f21c3e4"
    , org_id := "org-1"
    , custom_fields := [("industry", "Healthcare"), ("source", "Referral"), ("budget", "$100,000")]
  , created_at := 1735862400000
  , updated_at := 1736121600000 }

/-- The `mockLeads` seed dataset (lines 86-138), used by the fallback paths. -/
def mockLeads : List Lead := [mockLead1, mockLead2, mockLead3]

/-- The mock-data filter predicate used by both the `!supabase` branch
(lines 323-333) and the catch fallback (lines 402-412) of `fetchLeads`:
explicit filters only — no role scoping. -/
def leadMatchesMockFilters (fs : Filters) (lead : Lead) : Bool :=
  if (truthyGet fs "status").any (fun v => lead.status != v) then false
  else if (truthyGet fs "assigned_to").any (fun v => lead.assigned_to != v) then false
  else if (truthyGet fs "pipeline_id").any (fun v => lead.pipeline_id != v) then false
  else
    match truthyGet fs "search" with
    | some s =>
        strIncludes lead.name.toLower s.toLower || strIncludes lead.email.toLower s.toLower
    | none => true

/-- One constraint accumulated on the Supabase query builder. -/
inductive QueryConstraint
  | eqField (field : String) (v : String)
  | orSearch (v : String)
deriving DecidableEq

/-- Reading a column off a lead row for `eq` constraints. -/
def leadField (l : Lead) (f : String) : Option String :=
  if f = "status" then some l.status
  else if f = "assigned_to" then some l.assigned_to
  else if f = "pipeline_id" then some l.pipeline_id
  else if f = "id" then some l.id
  else none

/-- Backend evaluation of one constraint against a row (`eq` is equality on the
column; `or(name.ilike.%s%,email.ilike.%s%)` is case-insensitive containment). -/
def satisfiesConstraint (l : Lead) : QueryConstraint → Bool
  | QueryConstraint.eqField f v => leadField l f == some v
  | QueryConstraint.orSearch s =>
      strIncludes l.name.toLower s.toLower || strIncludes l.email.toLower s.toLower

/-- `applyRoleFilters(query, filters)` (lines 181-203): Sales Rep adds
`eq('assigned_to', userId)`; Admin and Manager leave the query unchanged; the
switch has no default case, so any other role also leaves it unchanged. -/
def applyRoleFilters (currentUser : Option User) (query : List QueryConstraint) :
    List QueryConstraint :=
  match currentUser with
  | none => query
  | some u =>
    match u.role with
    | "Admin" => query
    | "Manager" => query
    | "Sales Rep" => query ++ [QueryConstraint.eqField "assigned_to" u.id]
    | _ => query

/-- The constraint list `fetchLeads` builds (lines 352-375): role filters,
then `eq` for each truthy explicit filter, then the search `or`. -/
def buildLeadsQuery (currentUser : Option User) (fs : Filters) :
    List QueryConstraint :=
  let q := applyRoleFilters currentUser []
  let q := match truthyGet fs "status" with
    | some v => q ++ [QueryConstraint.eqField "status" v]
    | none => q
  let q := match truthyGet fs "assigned_to" with
    | some v => q ++ [QueryConstraint.eqField "assigned_to" v]
    | none => q
  let q := match truthyGet fs "pipeline_id" with
    | some v => q ++ [QueryConstraint.eqField "pipeline_id" v]
    | none => q
  match truthyGet fs "search" with
  | some v => q ++ [QueryConstraint.orSearch v]
  | none => q

/-- Backend evaluation of a built query over the table rows (rows given in the
order the backend returns them, i.e. `created_at` descending). -/
def runQuery (rows : List Lead) (q : List QueryConstraint) : List Lead :=
  rows.filter (fun l => q.all (satisfiesConstraint l))

/-- Reading a `leadsCache` payload as the list `fetchLeads` returns on a cache
hit.  List keys and `lead_` keys are disjoint, so on the `fetchLeads` path the
payload is always a `.list`. -/
def payloadList : CachePayload → List Lead
  | CachePayload.list ls => ls
  | CachePayload.single l => [l]

/-- `fetchLeads(filters)` (lines 308-418).  Parameters: the actor, whether the
Supabase client exists, the backend outcome (`.ok rows` = the `leads` table in
return order, `.error` = the thrown fetch error), and the clock. -/
def fetchLeads (currentUser : Option User) (supabaseUp : Bool)
    (backend : Except String (List Lead)) (now : Int) (s : Ctx) (fs : Filters) :
    List Lead × Ctx :=
  if ¬ hasPermission currentUser Action.view none then
    ([], { s with error := some "You do not have permission to view leads" })
  else if ¬ supabaseUp ∨ currentUser = none then
    let r := mockLeads.filter (leadMatchesMockFilters fs)
    (r, { s with leads := r, error := none })
  else
    let cacheKey := jsonStringifyObj fs
    let fromBackend : List Lead × Ctx :=
      match backend with
      | Except.ok rows =>
          let result := runQuery rows (buildLeadsQuery currentUser fs)
          (result,
            { s with
                leads := result,
                leadsCache := mapSet s.leadsCache cacheKey ⟨CachePayload.list result, now⟩,
                error := none })
      | Except.error _ =>
          -- the catch logs a warning (no `setError`) and filters the mock data
          let r := mockLeads.filter (leadMatchesMockFilters fs)
          (r, { s with leads := r, error := none })
    match mapGet s.leadsCache cacheKey with
    | some e =>
        if isCacheValid now e.timestamp then
          (payloadList e.data, { s with leads := payloadList e.data, error := none })
        else fromBackend
    | none => fromBackend

/-- `fetchLeadById(leadId)` (lines 423-503).  `backend` is the outcome of the
single-row select (a `.single()` miss surfaces as `.error`). -/
def fetchLeadById (currentUser : Option User) (supabaseUp : Bool)
    (backend : Except String Lead) (now : Int) (s : Ctx) (leadId : String) :
    Option Lead × Ctx :=
  if ¬ supabaseUp then
    match mockLeads.find? (fun l => l.id == leadId) with
    | some ml =>
        if hasPermission currentUser Action.view (some ml) then
          (some ml, { s with error := none })
        else (none, { s with error := none })
    | none => (none, { s with error := none })
  else
    let fromBackend : Option Lead × Ctx :=
      match backend with
      | Except.ok row =>
          if ¬ hasPermission currentUser Action.view (some row) then
            (none, { s with error := some "You do not have permission to view this lead" })
          else
            (some row,
              { s with
                  leadsCache :=
                    mapSet s.leadsCache ("lead_" ++ leadId) ⟨CachePayload.single row, now⟩,
                  error := none })
      | Except.error msg =>
          -- `handleError` records the failure, then the catch falls back to mock data
          let s1 := { s with error := some ("Failed to fetch lead details: " ++ msg) }
          match mockLeads.find? (fun l => l.id == leadId) with
          | some ml =>
              if hasPermission currentUser Action.view (some ml) then (some ml, s1)
              else (none, s1)
          | none => (none, s1)
    match mapGet s.leadsCache ("lead_" ++ leadId) with
    | some e =>
        match e.data with
        | CachePayload.single l =>
            if isCacheValid now e.timestamp ∧ hasPermission currentUser Action.view (some l) then
              (some l, { s with error := none })
            else fromBackend
        | CachePayload.list _ => fromBackend
    | none => fromBackend

/-- JS `a || b` for an optional string: falsy (absent or empty) falls through. -/
def jsOr (a : Option String) (d : String) : String :=
  match a with
  | some v => if v = "" then d else v
  | none => d

/-- The payload passed to `createLead`.  Callers may supply camelCase fields
(read by the `!supabase` branch: `stageId`, `pipelineId`, `assignedTo`,
`orgId`) or snake_case fields (read by the insert payload and the catch
branch: `stage_id`, `pipeline_id`, `assigned_to`, `org_id`); a field a branch
reads that the caller did not set is `undefined` in JS, modelled as `""`. -/
structure LeadInput where
  name : String
  email : String
  phone : Option String
  status : Option String
  stageId : String
  pipelineId : String
  assignedTo : String
  orgId : String
  stage_id : String
  pipeline_id : String
  assigned_to : String
  org_id : String
  customFields : List (String × String)
deriving DecidableEq

/-- The lead the `!supabase` branch of `createLead` constructs (lines 520-537);
`phone` is kept as a `String` column with `leadData.phone || null ≈ ""`. -/
def mkMockLead (now : Int) (d : LeadInput) : Lead :=
  { id := "lead-" ++ toString now
  , name := d.name
  , email := d.email
  , phone := jsOr d.phone ""
  , status := jsOr d.status "New"
  , stage_id := d.stageId
  , pipeline_id := d.pipelineId
  , assigned_to := d.assignedTo
  , org_id := d.orgId
  , custom_fields := d.customFields
  , created_at := now
  , updated_at := now }

/-- The optimistic lead the catch branch of `createLead` constructs
(lines 588-604): same shape but reading the snake_case input fields. -/
def mkCatchLead (now : Int) (d : LeadInput) : Lead :=
  { id := "lead-" ++ toString now
  , name := d.name
  , email := d.email
  , phone := jsOr d.phone ""
  , status := jsOr d.status "New"
  , stage_id := d.stage_id
  , pipeline_id := d.pipeline_id
  , assigned_to := d.assigned_to
  , org_id := d.org_id
  , custom_fields := d.customFields
  , created_at := now
  , updated_at := now }

/-- `createLead(leadData)` (lines 508-610). -/
def createLead (currentUser : Option User) (supabaseUp : Bool)
    (backend : Except String Lead) (now : Int) (s : Ctx) (d : LeadInput) :
    Option Lead × Ctx :=
  if ¬ hasPermission currentUser Action.create none then
    (none, { s with error := some "You do not have permission to create leads" })
  else if ¬ supabaseUp then
    let nl := mkMockLead now d
    (some nl, { s with leads := nl :: s.leads, error := none })
  else
    match backend with
    | Except.ok row =>
        (some row, { s with leads := row :: s.leads, leadsCache := [], error := none })
    | Except.error msg =>
        let nl := mkCatchLead now d
        (none,
          { s with
              leads := nl :: s.leads,
              error := some ("Failed to create lead: " ++ msg) })

/-- The update patch passed to `updateLead` / `bulkUpdateLeads`; an absent
field is absent from the JS object. -/
structure LeadUpdates where
  name : Option String
  email : Option String
  phone : Option String
  status : Option String
  stage_id : Option String
  pipeline_id : Option String
  assigned_to : Option String
  customFields : Option (List (String × String))
deriving DecidableEq

/-- The JS spread `{ ...lead, ...updates, updated_at: now }` used by the
`!supabase` branches of `updateLead` and `bulkUpdateLeads`. -/
def applyLeadUpdates (l : Lead) (u : LeadUpdates) (now : Int) : Lead :=
  { l with
      name := u.name.getD l.name,
      email := u.email.getD l.email,
      phone := u.phone.getD l.phone,
      status := u.status.getD l.status,
      stage_id := u.stage_id.getD l.stage_id,
      pipeline_id := u.pipeline_id.getD l.pipeline_id,
      assigned_to := u.assigned_to.getD l.assigned_to,
      custom_fields := u.customFields.getD l.custom_fields,
      updated_at := now }

/-- `updateLead(leadId, updates)` (lines 615-708).  `backend` carries the
updated row the backend select returns.  The catch branch first records the
error via `handleError` and then references `existingLead`, a `const` scoped
to the `try` block — a `ReferenceError` in JS — so it is modelled as the error
being recorded with no further state change. -/
def updateLead (currentUser : Option User) (supabaseUp : Bool)
    (backend : Except String Lead) (now : Int) (s : Ctx) (leadId : String)
    (updates : LeadUpdates) : Option Lead × Ctx :=
  match s.leads.find? (fun l => l.id == leadId) with
  | none => (none, { s with error := some "You do not have permission to edit this lead" })
  | some existing =>
    if ¬ hasPermission currentUser Action.edit (some existing) then
      (none, { s with error := some "You do not have permission to edit this lead" })
    else if ¬ supabaseUp then
      let updated := applyLeadUpdates existing updates now
      (some updated,
        { s with
            leads := s.leads.map (fun l => if l.id == leadId then updated else l),
            error := none })
    else
      match backend with
      | Except.ok row =>
          (some row,
            { s with
                leads := s.leads.map (fun l => if l.id == leadId then row else l),
                leadsCache := mapDelete s.leadsCache ("lead_" ++ leadId),
                error := none })
      | Except.error msg =>
          (none, { s with error := some ("Failed to update lead: " ++ msg) })

/-- `deleteLead(leadId)` (lines 713-774). -/
def deleteLead (currentUser : Option User) (supabaseUp : Bool)
    (backend : Except String Unit) (s : Ctx) (leadId : String) : Bool × Ctx :=
  match s.leads.find? (fun l => l.id == leadId) with
  | none => (false, { s with error := some "You do not have permission to delete this lead" })
  | some existing =>
    if ¬ hasPermission currentUser Action.delete (some existing) then
      (false, { s with error := some "You do not have permission to delete this lead" })
    else if ¬ supabaseUp then
      (true,
        { s with
            leads := s.leads.filter (fun l => l.id != leadId),
            contacts := s.contacts.filter (fun c => c.lead_id != leadId),
            error := none })
    else
      match backend with
      | Except.ok _ =>
          (true,
            { s with
                leads := s.leads.filter (fun l => l.id != leadId),
                contacts := s.contacts.filter (fun c => c.lead_id != leadId),
                leadsCache := mapDelete s.leadsCache ("lead_" ++ leadId),
                contactsCache := mapDelete s.contactsCache ("contacts_" ++ leadId),
                error := none })
      | Except.error msg =>
          (false,
            { s with
                leads := s.leads.filter (fun l => l.id != leadId),
                contacts := s.contacts.filter (fun c => c.lead_id != leadId),
                error := some ("Failed to delete lead: " ++ msg) })

/-- The payload passed to `addContact`. -/
structure ContactInput where
  leadId : String
  name : String
  email : Option String
  phone : Option String
  designation : Option String
  notes : Option String
  createdBy : String
deriving DecidableEq

/-- The contact the `!supabase` branch (lines 844-865) and the catch branch
(lines 913-928) of `addContact` construct (`x || null`: empty strings fall
back to `null`). -/
def mkMockContact (now : Int) (cd : ContactInput) : Contact :=
  { id := "contact-" ++ toString now
  , lead_id := cd.leadId
  , name := cd.name
  , email := match cd.email with | some v => if v = "" then none else some v | none => none
  , phone := match cd.phone with | some v => if v = "" then none else some v | none => none
  , designation := match cd.designation with
      | some v => if v = "" then none else some v
      | none => none
  , notes := match cd.notes with | some v => if v = "" then none else some v | none => none
  , created_by := cd.createdBy
  , created_at := now
  , updated_at := now }

/-- `addContact(contactData)` (lines 838-934).  Note: no permission check of
any kind — the function never reads `currentUser` or calls `hasPermission`. -/
def addContact (supabaseUp : Bool) (backend : Except String Contact) (now : Int)
    (s : Ctx) (cd : ContactInput) : Option Contact × Ctx :=
  if ¬ supabaseUp then
    let nc := mkMockContact now cd
    (some nc, { s with contacts := nc :: s.contacts, error := none })
  else
    match backend with
    | Except.ok row =>
        (some row,
          { s with
              contacts := row :: s.contacts,
              contactsCache := mapDelete s.contactsCache ("contacts_" ++ cd.leadId),
              error := none })
    | Except.error msg =>
        let nc := mkMockContact now cd
        (none,
          { s with
              contacts := nc :: s.contacts,
              error := some ("Failed to add contact: " ++ msg) })

/-- The update patch passed to `updateContact`. -/
structure ContactUpdates where
  name : Option String
  email : Option String
  phone : Option String
  designation : Option String
  notes : Option String
deriving DecidableEq

/-- The JS spread `{ ...existingContact, ...updates, updated_at: now }`. -/
def applyContactUpdates (c : Contact) (u : ContactUpdates) (now : Int) : Contact :=
  { c with
      name := u.name.getD c.name,
      email := match u.email with | some v => some v | none => c.email,
      phone := match u.phone with | some v => some v | none => c.phone,
      designation := match u.designation with | some v => some v | none => c.designation,
      notes := match u.notes with | some v => some v | none => c.notes,
      updated_at := now }

/-- `updateContact(contactId, updates)` (lines 939-1027).  No permission check
of any kind. -/
def updateContact (supabaseUp : Bool) (backend : Except String Contact)
    (now : Int) (s : Ctx) (contactId : String) (updates : ContactUpdates) :
    Option Contact × Ctx :=
  if ¬ supabaseUp then
    match s.contacts.find? (fun c => c.id == contactId) with
    | some existing =>
        let upd := applyContactUpdates existing updates now
        (some upd,
          { s with
              contacts := s.contacts.map (fun c => if c.id == contactId then upd else c),
              error := none })
    | none => (none, { s with error := none })
  else
    match backend with
    | Except.ok row =>
        (some row,
          { s with
              contacts := s.contacts.map (fun c => if c.id == contactId then row else c),
              contactsCache := mapDelete s.contactsCache ("contacts_" ++ row.lead_id),
              error := none })
    | Except.error msg =>
        let s1 := { s with error := some ("Failed to update contact: " ++ msg) }
        match s.contacts.find? (fun c => c.id == contactId) with
        | some existing =>
            let upd := applyContactUpdates existing updates now
            (none,
              { s1 with
                  contacts := s.contacts.map (fun c => if c.id == contactId then upd else c) })
        | none => (none, s1)

/-- `deleteContact(contactId)` (lines 1032-1067).  No permission check of any
kind; the success path clears the whole contacts cache. -/
def deleteContact (supabaseUp : Bool) (backend : Except String Unit) (s : Ctx)
    (contactId : String) : Bool × Ctx :=
  if ¬ supabaseUp then
    (true,
      { s with
          contacts := s.contacts.filter (fun c => c.id != contactId),
          error := none })
  else
    match backend with
    | Except.ok _ =>
        (true,
          { s with
              contacts := s.contacts.filter (fun c => c.id != contactId),
              contactsCache := [],
              error := none })
    | Except.error msg =>
        (false,
          { s with
              contacts := s.contacts.filter (fun c => c.id != contactId),
              error := some ("Failed to delete contact: " ++ msg) })

/-- `bulkUpdateLeads(leadIds, updates)` (lines 1072-1163).  The permission
check runs first, against the current Record Store entries of the batch;
`backend` carries the rows the bulk update select returns. -/
def bulkUpdateLeads (currentUser : Option User) (supabaseUp : Bool)
    (backend : Except String (List Lead)) (now : Int) (s : Ctx)
    (leadIds : List String) (updates : LeadUpdates) : List Lead × Ctx :=
  let leadsToUpdate := s.leads.filter (fun l => leadIds.contains l.id)
  let unauthorizedLeads :=
    leadsToUpdate.filter (fun l => ! hasPermission currentUser Action.edit (some l))
  if unauthorizedLeads.length > 0 then
    ([],
      { s with
          error := some ("You do not have permission to edit "
            ++ toString unauthorizedLeads.length ++ " of the selected leads") })
  else if ¬ supabaseUp then
    let updatedLeads := s.leads.map (fun l =>
      if leadIds.contains l.id then applyLeadUpdates l updates now else l)
    (updatedLeads.filter (fun l => leadIds.contains l.id),
      { s with leads := updatedLeads, error := none })
  else
    match backend with
    | Except.ok rows =>
        (rows,
          { s with
              leads := s.leads.map (fun l =>
                match rows.find? (fun r => r.id == l.id) with
                | some r => r
                | none => l),
              leadsCache := [],
              error := none })
    | Except.error msg =>
        let updatedLeads := s.leads.map (fun l =>
          if leadIds.contains l.id then applyLeadUpdates l updates now else l)
        ([],
          { s with
              leads := updatedLeads,
              error := some ("Failed to bulk update leads: " ++ msg) })

/-- Empty starting state (all React state at its initial value, no error). -/
def emptyCtx : Ctx := { leads := [], contacts := [], leadsCache := [], contactsCache := [], error := none }

/-- Sample Admin actor used in concrete scenarios. -/
def sampleAdmin : User := ⟨"adm-1", "Admin"⟩

/-- Sample Sales Rep actor with id `u2` used in concrete scenarios. -/
def sampleRep2 : User := ⟨"u2", "Sales Rep"⟩

/-- Sample actor with a role outside the role table. -/
def sampleIntern : User := ⟨"u9", "Intern"⟩

/-- Sample lead assigned to `u1`. -/
def leadU1 : Lead :=
  ⟨"L1", "Acme", "acme@x.com", "", "New", "s1", "p1", "u1", "o1", [], 30, 30⟩

/-- First sample lead assigned to `u2`. -/
def leadU2a : Lead :=
  ⟨"L2", "Beta", "beta@x.com", "", "New", "s1", "p1", "u2", "o1", [], 20, 20⟩

/-- Second sample lead assigned to `u2`. -/
def leadU2b : Lead :=
  ⟨"L3", "Gamma", "gamma@x.com", "", "Qualified", "s1", "p1", "u2", "o1", [], 10, 10⟩

-- Theorems ------------------------------------------------------------------

/-- A `JSON.stringify` list key never equals a `lead_<id>` single-record key:
the former starts with a brace, the latter with the letter l. -/
theorem jsonKey_ne_leadKey (fs : Filters) (id : String) :
    jsonStringifyObj fs ≠ "lead_" ++ id := by
  intro h
  have hd := congrArg String.data h
  rw [jsonStringifyObj, String.data_append] at hd
  have h5 : ("lead_" : String).data = ['l', 'e', 'a', 'd', '_'] := rfl
  rw [h5] at hd
  simp at hd

/-- Core of `mapGet_mapDelete_ne`, at the `find?`/`filter` level. -/
theorem find?_filter_key_ne {α : Type} (m : List (String × α)) (k k' : String)
    (h : k' ≠ k) :
    List.find? (fun p => p.1 == k') (List.filter (fun p => p.1 != k) m)
      = List.find? (fun p => p.1 == k') m := by
  induction m with
  | nil => rfl
  | cons p rest ih =>
    by_cases hp : p.1 = k
    · have h2 : ¬ ((fun q : String × α => q.1 == k') p = true) := by
        simp only [hp, beq_iff_eq]
        exact fun e => h e.symm
      have h1 : (p.1 != k) = false := by simp [hp]
      rw [List.filter_cons, h1]
      simp only [Bool.false_eq_true, if_false]
      rw [@List.find?_cons_of_neg _ (fun q : String × α => q.1 == k') p rest h2]
      exact ih
    · have h1 : (p.1 != k) = true := by simp [hp]
      rw [List.filter_cons, h1]
      simp only [if_true]
      by_cases hq : p.1 = k'
      · have h2 : ((fun q : String × α => q.1 == k') p = true) := by simp [hq]
        rw [@List.find?_cons_of_pos _ (fun q : String × α => q.1 == k') p
            (List.filter (fun q => q.1 != k) rest) h2,
          @List.find?_cons_of_pos _ (fun q : String × α => q.1 == k') p rest h2]
      · have h2 : ¬ ((fun q : String × α => q.1 == k') p = true) := by simp [hq]
        rw [@List.find?_cons_of_neg _ (fun q : String × α => q.1 == k') p
            (List.filter (fun q => q.1 != k) rest) h2,
          @List.find?_cons_of_neg _ (fun q : String × α => q.1 == k') p rest h2]
        exact ih

/-- Deleting one key from a JS map leaves lookups of every other key intact. -/
theorem mapGet_mapDelete_ne {α : Type} (m : List (String × α)) (k k' : String)
    (h : k' ≠ k) : mapGet (mapDelete m k) k' = mapGet m k' := by
  unfold mapGet mapDelete
  rw [find?_filter_key_ne m k k' h]

/-- C1: the access-policy function matches the role table: Admin is allowed
everything; Sales Rep may `view` iff the record is absent or assigned to them,
may always `create`, and may `edit`/`delete` iff a record is present and
assigned to them; a role other than Admin/Manager/Sales Rep is denied every
action. -/
theorem spec_c1_access_policy (u : User) (l : Lead) :
    (u.role = "Admin" →
      ∀ (a : Action) (ol : Option Lead), hasPermission (some u) a ol = true)
  ∧ (u.role = "Sales Rep" →
        hasPermission (some u) Action.view none = true
      ∧ hasPermission (some u) Action.view (some l) = (l.assigned_to == u.id)
      ∧ hasPermission (some u) Action.create none = true
      ∧ hasPermission (some u) Action.create (some l) = true
      ∧ hasPermission (some u) Action.edit none = false
      ∧ hasPermission (some u) Action.edit (some l) = (l.assigned_to == u.id)
      ∧ hasPermission (some u) Action.delete none = false
      ∧ hasPermission (some u) Action.delete (some l) = (l.assigned_to == u.id))
  ∧ (u.role ≠ "Admin" → u.role ≠ "Manager" → u.role ≠ "Sales Rep" →
      ∀ (a : Action) (ol : Option Lead), hasPermission (some u) a ol = false) := by
  refine ⟨fun h a ol => ?_, fun h => ?_, fun h1 h2 h3 a ol => ?_⟩
  · simp [hasPermission, h]
  · simp [hasPermission, h]
  · cases a <;> simp [hasPermission, h1, h2, h3]

/-- Witness for C1 at concrete actors: an Admin deleting with no record, a
Sales Rep editing a record assigned to someone else, and an unknown-role actor
viewing. -/
theorem spec_c1_access_policy_witness :
    hasPermission (some sampleAdmin) Action.delete none = true
  ∧ hasPermission (some sampleRep2) Action.edit (some leadU1)
      = (leadU1.assigned_to == sampleRep2.id)
  ∧ hasPermission (some sampleIntern) Action.view none = false := by
  refine ⟨(spec_c1_access_policy sampleAdmin leadU1).1 rfl Action.delete none, ?_, ?_⟩
  · exact ((spec_c1_access_policy sampleRep2 leadU1).2.1 rfl).2.2.2.2.2.1
  · exact (spec_c1_access_policy sampleIntern leadU1).2.2
      (by decide) (by decide) (by decide) Action.view none

/-- C7: a cache entry fetched at `T0` (a genuine, hence positive, clock value)
is fresh exactly while `now - T0 < 300000` ms and stale once the difference
reaches the TTL; a list lookup at `T0+299999` is served from the cache and one
at `T0+300001` misses and is served from the backend. -/
theorem spec_c7_cache_ttl (T0 : Int) (h : 0 < T0) :
    (∀ now : Int, isCacheValid now T0 = true ↔ now - T0 < 300000)
  ∧ isCacheValid (T0 + 299999) T0 = true
  ∧ isCacheValid (T0 + 300000) T0 = false
  ∧ isCacheValid (T0 + 300001) T0 = false
  ∧ (fetchLeads (some sampleAdmin) true (Except.ok [leadU1]) (T0 + 299999)
      { emptyCtx with leadsCache := [("{}", ⟨CachePayload.list [leadU2a], T0⟩)] } []).1
      = [leadU2a]
  ∧ (fetchLeads (some sampleAdmin) true (Except.ok [leadU1]) (T0 + 300001)
      { emptyCtx with leadsCache := [("{}", ⟨CachePayload.list [leadU2a], T0⟩)] } []).1
      = [leadU1] := by
  have hfresh : isCacheValid (T0 + 299999) T0 = true := by
    simp only [isCacheValid, CACHE_EXPIRY]
    simp only [bne_iff_ne, ne_eq, Bool.and_eq_true, decide_eq_true_eq]
    omega
  have hstale : isCacheValid (T0 + 300001) T0 = false := by
    simp only [isCacheValid, CACHE_EXPIRY]
    simp only [Bool.and_eq_false_iff, bne_eq_false_iff_eq, decide_eq_false_iff_not]
    omega
  have hperm : hasPermission (some sampleAdmin) Action.view none = true := by decide
  have hkey : jsonStringifyObj ([] : Filters) = "{}" := rfl
  refine ⟨?_, hfresh, ?_, hstale, ?_, ?_⟩
  · intro now
    simp only [isCacheValid, CACHE_EXPIRY, bne_iff_ne, ne_eq, Bool.and_eq_true,
      decide_eq_true_eq]
    omega
  · simp only [isCacheValid, CACHE_EXPIRY, Bool.and_eq_false_iff,
      bne_eq_false_iff_eq, decide_eq_false_iff_not]
    omega
  · simp only [fetchLeads, hperm, hkey]
    simp [hfresh, mapGet, payloadList]
  · simp only [fetchLeads, hperm, hkey]
    simp [hstale, mapGet]
    decide

/-- Witness for C7 at `T0 = 1000`. -/
theorem spec_c7_cache_ttl_witness :
    isCacheValid (1000 + 299999) 1000 = true
  ∧ isCacheValid (1000 + 300001) 1000 = false
  ∧ (fetchLeads (some sampleAdmin) true (Except.ok [leadU1]) (1000 + 299999)
      { emptyCtx with leadsCache := [("{}", ⟨CachePayload.list [leadU2a], 1000⟩)] } []).1
      = [leadU2a] := by
  have h := spec_c7_cache_ttl 1000 (by decide)
  exact ⟨h.2.1, h.2.2.2.1, h.2.2.2.2.1⟩

/-- C9: once the permission gate passes, `deleteLead(id)` removes from the
Record Store the lead with that id and exactly the contacts whose `lead_id`
equals that id, leaving every other lead and contact unchanged — on the local
simulation path, the backend success path and the backend failure path alike. -/
theorem spec_c9_cascade_delete (currentUser : Option User) (supabaseUp : Bool)
    (backend : Except String Unit) (s : Ctx) (leadId : String) (ex : Lead)
    (h1 : s.leads.find? (fun l => l.id == leadId) = some ex)
    (h2 : hasPermission currentUser Action.delete (some ex) = true) :
    ((deleteLead currentUser supabaseUp backend s leadId).2.leads
        = s.leads.filter (fun l => l.id != leadId))
  ∧ ((deleteLead currentUser supabaseUp backend s leadId).2.contacts
        = s.contacts.filter (fun c => c.lead_id != leadId))
  ∧ (∀ l : Lead, l ∈ (deleteLead currentUser supabaseUp backend s leadId).2.leads
        ↔ l ∈ s.leads ∧ l.id ≠ leadId)
  ∧ (∀ c : Contact, c ∈ (deleteLead currentUser supabaseUp backend s leadId).2.contacts
        ↔ c ∈ s.contacts ∧ c.lead_id ≠ leadId) := by
  have hstore : ((deleteLead currentUser supabaseUp backend s leadId).2.leads
        = s.leads.filter (fun l => l.id != leadId))
      ∧ ((deleteLead currentUser supabaseUp backend s leadId).2.contacts
        = s.contacts.filter (fun c => c.lead_id != leadId)) := by
    unfold deleteLead
    rw [h1]
    simp only [h2]
    cases supabaseUp with
    | false => simp
    | true =>
      cases backend with
      | ok u => simp
      | error m => simp
  refine ⟨hstore.1, hstore.2, ?_, ?_⟩
  · intro l
    rw [hstore.1]
    simp [List.mem_filter, bne_iff_ne]
  · intro c
    rw [hstore.2]
    simp [List.mem_filter, bne_iff_ne]

/-- Witness for C9: an Admin deletes lead `L1`; the lead and its single
contact disappear while the contact of `L2` survives. -/
theorem spec_c9_cascade_delete_witness :
    ((deleteLead (some sampleAdmin) true (Except.ok ())
        { emptyCtx with
            leads := [leadU1, leadU2a],
            contacts := [⟨"c1", "L1", "N", none, none, none, none, "u1", 0, 0⟩,
              ⟨"c2", "L2", "M", none, none, none, none, "u1", 0, 0⟩] } "L1").2.leads
      = [leadU2a])
  ∧ ((deleteLead (some sampleAdmin) true (Except.ok ())
        { emptyCtx with
            leads := [leadU1, leadU2a],
            contacts := [⟨"c1", "L1", "N", none, none, none, none, "u1", 0, 0⟩,
              ⟨"c2", "L2", "M", none, none, none, none, "u1", 0, 0⟩] } "L1").2.contacts
      = [⟨"c2", "L2", "M", none, none, none, none, "u1", 0, 0⟩]) := by
  have h := spec_c9_cascade_delete (some sampleAdmin) true (Except.ok ())
    { emptyCtx with
        leads := [leadU1, leadU2a],
        contacts := [⟨"c1", "L1", "N", none, none, none, none, "u1", 0, 0⟩,
          ⟨"c2", "L2", "M", none, none, none, none, "u1", 0, 0⟩] } "L1" leadU1
    (by decide) (by decide)
  rw [h.1, h.2.1]
  decide

/-- C4: `bulkUpdateLeads` is all-or-nothing under permission failures: if some
lead of the batch fails the edit check against the current Record Store, the
whole state (store and caches) is left unchanged, the reported error carries
the exact number of unauthorized leads, and the result is empty. -/
theorem spec_c4_bulk_all_or_nothing (currentUser : Option User) (supabaseUp : Bool)
    (backend : Except String (List Lead)) (now : Int) (s : Ctx)
    (leadIds : List String) (updates : LeadUpdates)
    (h : ∃ l, l ∈ s.leads ∧ leadIds.contains l.id = true
        ∧ hasPermission currentUser Action.edit (some l) = false) :
    ((bulkUpdateLeads currentUser supabaseUp backend now s leadIds updates).1 = [])
  ∧ ((bulkUpdateLeads currentUser supabaseUp backend now s leadIds updates).2.leads = s.leads)
  ∧ ((bulkUpdateLeads currentUser supabaseUp backend now s leadIds updates).2.contacts
      = s.contacts)
  ∧ ((bulkUpdateLeads currentUser supabaseUp backend now s leadIds updates).2.leadsCache
      = s.leadsCache)
  ∧ ((bulkUpdateLeads currentUser supabaseUp backend now s leadIds updates).2.contactsCache
      = s.contactsCache)
  ∧ ((bulkUpdateLeads currentUser supabaseUp backend now s leadIds updates).2.error
      = some ("You do not have permission to edit "
          ++ toString ((s.leads.filter (fun l => leadIds.contains l.id)).filter
              (fun l => ! hasPermission currentUser Action.edit (some l))).length
          ++ " of the selected leads")) := by
  obtain ⟨l, hmem, hin, hperm⟩ := h
  have hl : l ∈ (s.leads.filter (fun l => leadIds.contains l.id)).filter
      (fun l => ! hasPermission currentUser Action.edit (some l)) := by
    rw [List.mem_filter, List.mem_filter]
    exact ⟨⟨hmem, hin⟩, by simp [hperm]⟩
  have hpos : 0 < ((s.leads.filter (fun l => leadIds.contains l.id)).filter
      (fun l => ! hasPermission currentUser Action.edit (some l))).length :=
    List.length_pos.mpr (List.ne_nil_of_mem hl)
  unfold bulkUpdateLeads
  dsimp only
  rw [if_pos hpos]
  exact ⟨rfl, rfl, rfl, rfl, rfl, rfl⟩

/-- Witness for C4: a batch of one allowed (`L2`, assigned to the Sales Rep
`u2`) and one denied (`L1`, assigned to `u1`) lead changes neither record and
reports exactly one unauthorized record. -/
theorem spec_c4_bulk_all_or_nothing_witness :
    ((bulkUpdateLeads (some sampleRep2) false (Except.ok []) 0
        { emptyCtx with leads := [leadU1, leadU2a] } ["L1", "L2"]
        ⟨none, none, none, some "Lost", none, none, none, none⟩).1 = [])
  ∧ ((bulkUpdateLeads (some sampleRep2) false (Except.ok []) 0
        { emptyCtx with leads := [leadU1, leadU2a] } ["L1", "L2"]
        ⟨none, none, none, some "Lost", none, none, none, none⟩).2.leads
      = [leadU1, leadU2a])
  ∧ ((bulkUpdateLeads (some sampleRep2) false (Except.ok []) 0
        { emptyCtx with leads := [leadU1, leadU2a] } ["L1", "L2"]
        ⟨none, none, none, some "Lost", none, none, none, none⟩).2.error
      = some "You do not have permission to edit 1 of the selected leads") := by
  have h := spec_c4_bulk_all_or_nothing (some sampleRep2) false (Except.ok []) 0
    { emptyCtx with leads := [leadU1, leadU2a] } ["L1", "L2"]
    ⟨none, none, none, some "Lost", none, none, none, none⟩
    ⟨leadU1, by decide, by decide, by decide⟩
  refine ⟨h.1, h.2.1, ?_⟩
  rw [h.2.2.2.2.2]
  decide

/-- C10: when the backend insert inside `createLead` fails, the optimistic
lead is still prepended to the Record Store but the call returns `none` — the
same return value a permission denial produces (which prepends nothing), so
the caller cannot distinguish the degraded success from a rejection. -/
theorem spec_c10_create_failure (u : User) (s : Ctx) (d : LeadInput) (now : Int)
    (msg : String) (hperm : hasPermission (some u) Action.create none = true) :
    ((createLead (some u) true (Except.error msg) now s d).1 = none)
  ∧ ((createLead (some u) true (Except.error msg) now s d).2.leads
      = mkCatchLead now d :: s.leads)
  ∧ (∀ u' : User, hasPermission (some u') Action.create none = false →
        (createLead (some u') true (Except.error msg) now s d).1 = none
      ∧ (createLead (some u') true (Except.error msg) now s d).2.leads = s.leads) := by
  refine ⟨?_, ?_, fun u' hd => ⟨?_, ?_⟩⟩
  · simp [createLead, hperm]
  · simp [createLead, hperm]
  · simp [createLead, hd]
  · simp [createLead, hd]

/-- Witness for C10: an Admin's `createLead` against a failing backend returns
`none` yet prepends the optimistic lead; an unknown-role actor's `createLead`
also returns `none`. -/
theorem spec_c10_create_failure_witness :
    ((createLead (some sampleAdmin) true (Except.error "boom") 5 emptyCtx
        ⟨"A", "a@x.com", none, none, "", "", "", "", "s1", "p1", "u2", "o1", []⟩).1 = none)
  ∧ ((createLead (some sampleAdmin) true (Except.error "boom") 5 emptyCtx
        ⟨"A", "a@x.com", none, none, "", "", "", "", "s1", "p1", "u2", "o1", []⟩).2.leads
      = [mkCatchLead 5 ⟨"A", "a@x.com", none, none, "", "", "", "", "s1", "p1", "u2", "o1", []⟩])
  ∧ ((createLead (some sampleIntern) true (Except.error "boom") 5 emptyCtx
        ⟨"A", "a@x.com", none, none, "", "", "", "", "s1", "p1", "u2", "o1", []⟩).1 = none) := by
  have h := spec_c10_create_failure sampleAdmin emptyCtx
    ⟨"A", "a@x.com", none, none, "", "", "", "", "s1", "p1", "u2", "o1", []⟩ 5 "boom"
    (by decide)
  exact ⟨h.1, h.2.1, (h.2.2 sampleIntern (by decide)).1⟩

/-- C6: whenever `fetchLeadById` returns a lead — from the mock dataset, from
a fresh cache entry, from the backend, or from the catch fallback — the actor
passed the `view` permission check on that very lead at return time; every
denied or missing case returns `none` instead. -/
theorem spec_c6_view_gate (currentUser : Option User) (supabaseUp : Bool)
    (backend : Except String Lead) (now : Int) (s : Ctx) (leadId : String) (l : Lead)
    (h : (fetchLeadById currentUser supabaseUp backend now s leadId).1 = some l) :
    hasPermission currentUser Action.view (some l) = true := by
  unfold fetchLeadById at h
  split at h
  next hsup =>
    split at h
    next ml hml =>
      split at h
      next hp => simp only [Prod.fst] at h; cases h; exact hp
      next hp => simp at h
    next hml => simp at h
  next hsup =>
    dsimp only at h
    split at h
    next e he =>
      split at h
      next l0 hpay =>
        split at h
        next hc => simp only [Prod.fst] at h; cases h; exact hc.2
        next hc =>
          split at h
          next row =>
            split at h
            next hv => simp at h
            next hv => simp only [Prod.fst] at h; cases h; simpa using hv
          next msg =>
            split at h
            next ml hml =>
              split at h
              next hp => simp only [Prod.fst] at h; cases h; exact hp
              next hp => simp at h
            next hml => simp at h
      next hpay =>
        split at h
        next row =>
          split at h
          next hv => simp at h
          next hv => simp only [Prod.fst] at h; cases h; simpa using hv
        next msg =>
          split at h
          next ml hml =>
            split at h
            next hp => simp only [Prod.fst] at h; cases h; exact hp
            next hp => simp at h
          next hml => simp at h
    next he =>
      split at h
      next row =>
        split at h
        next hv => simp at h
        next hv => simp only [Prod.fst] at h; cases h; simpa using hv
      next msg =>
        split at h
        next ml hml =>
          split at h
          next hp => simp only [Prod.fst] at h; cases h; exact hp
          next hp => simp at h
        next hml => simp at h

/-- Witness for C6: an Admin fetching the first mock lead on the mock path
receives it, hence holds `view` permission on it. -/
theorem spec_c6_view_gate_witness :
    hasPermission (some sampleAdmin) Action.view (some mockLead1) = true :=
  spec_c6_view_gate (some sampleAdmin) false (Except.error "x") 0 emptyCtx
    "a1b2c3d4-e5f6-7890-abcd-ef1234567890" mockLead1 (by decide)

/-- C2 counterexample: on the fallback path (persistence collaborator
unavailable) a Sales Rep with id `u2` calling `fetchLeads({})` receives the
whole mock dataset — role scoping is not applied there, and the result is not
restricted to leads assigned to `u2`. -/
theorem spec_c2_fallback_unscoped_cex :
    ((fetchLeads (some sampleRep2) false (Except.ok []) 0 emptyCtx []).1 = mockLeads)
  ∧ ((fetchLeads (some sampleRep2) false (Except.ok []) 0 emptyCtx []).1.all
        (fun l => l.assigned_to == sampleRep2.id) = false) := by
  constructor
  · decide
  · decide

/-- C2 amended: the Sales Rep scoping of `fetchLeads({})` holds on the
persistence-backed path — the result is exactly the leads assigned to the
actor, in backend order — but the two fallback paths (client unconfigured, and
backend error) apply only the explicit filters to the mock dataset and return
all of it for an empty filter, with no role scoping. -/
theorem spec_c2_scoped_listing (u : User) (db : List Lead) (s : Ctx) (now : Int)
    (backendDown : Except String (List Lead)) (msg : String)
    (hrole : u.role = "Sales Rep")
    (hmiss : mapGet s.leadsCache (jsonStringifyObj []) = none) :
    ((fetchLeads (some u) true (Except.ok db) now s []).1
      = db.filter (fun l => l.assigned_to == u.id))
  ∧ ((fetchLeads (some u) false backendDown now s []).1 = mockLeads)
  ∧ ((fetchLeads (some u) true (Except.error msg) now s []).1 = mockLeads) := by
  have hperm : hasPermission (some u) Action.view none = true := by
    simp [hasPermission, hrole]
  have hmock : mockLeads.filter (leadMatchesMockFilters []) = mockLeads := by decide
  have hq : buildLeadsQuery (some u) [] = [QueryConstraint.eqField "assigned_to" u.id] := by
    simp [buildLeadsQuery, applyRoleFilters, hrole, truthyGet, mapGet]
  refine ⟨?_, ?_, ?_⟩
  · simp only [fetchLeads, hperm, hmiss]
    simp only [not_true, Bool.true_eq_false, if_false, ite_false, ite_true, not_false_iff]
    simp [hq]
    unfold runQuery
    apply List.filter_congr
    intro x hx
    simp only [List.all_cons, List.all_nil, Bool.and_true]
    rfl
  · simp only [fetchLeads, hperm]
    simp [hmock]
  · simp only [fetchLeads, hperm, hmiss]
    simp [hmock]

/-- Witness for the amended C2: Sales Rep `u2` against a backend with leads
assigned to `u1`, `u2`, `u2` receives exactly the two `u2` leads in order. -/
theorem spec_c2_scoped_listing_witness :
    (fetchLeads (some sampleRep2) true (Except.ok [leadU1, leadU2a, leadU2b]) 0
        emptyCtx []).1 = [leadU2a, leadU2b] := by
  have h := spec_c2_scoped_listing sampleRep2 [leadU1, leadU2a, leadU2b] emptyCtx 0
    (Except.ok []) "x" rfl rfl
  rw [h.1]
  decide

/-- The lead of the C3 counterexample before its update. -/
def c3LeadOld : Lead :=
  ⟨"L9", "Old", "old@x.com", "", "New", "s1", "p1", "u1", "o1", [], 1, 1⟩

/-- The same lead after the backend applied a status update. -/
def c3LeadNew : Lead :=
  { c3LeadOld with status := "Qualified", updated_at := 500 }

/-- C3 counterexample state: the list-query cache and the single-record cache
both hold pre-update payloads fetched at time 100. -/
def c3Ctx : Ctx :=
  { leads := [c3LeadOld]
  , contacts := []
  , leadsCache := [("{}", ⟨CachePayload.list [c3LeadOld], 100⟩),
      ("lead_L9", ⟨CachePayload.single c3LeadOld, 100⟩)]
  , contactsCache := []
  , error := none }

/-- C3 counterexample: a successful `updateLead` deletes only the
single-record key, so a `fetchLeads({})` issued right after it (well within
the TTL) still returns the cached list payload that predates the update. -/
theorem spec_c3_stale_list_after_update_cex :
    ((updateLead (some sampleAdmin) true (Except.ok c3LeadNew) 500 c3Ctx "L9"
        ⟨none, none, none, some "Qualified", none, none, none, none⟩).1 = some c3LeadNew)
  ∧ ((fetchLeads (some sampleAdmin) true (Except.ok [c3LeadNew]) 600
        (updateLead (some sampleAdmin) true (Except.ok c3LeadNew) 500 c3Ctx "L9"
          ⟨none, none, none, some "Qualified", none, none, none, none⟩).2 []).1
      = [c3LeadOld])
  ∧ (decide (c3LeadOld = c3LeadNew) = false) := by
  refine ⟨?_, ?_, ?_⟩
  · decide
  · decide
  · decide

/-- C3 amended: a successful backend-path `updateLead` invalidates exactly the
single-record key `lead_<id>`; every list-query entry (whose key is a
`JSON.stringify` fingerprint, never of the `lead_` shape) survives untouched,
so a subsequent `fetchLeads` within the TTL can serve a list payload that
predates the update.  (`createLead` and `bulkUpdateLeads` instead clear the
whole leads cache on their backend success paths.) -/
theorem spec_c3_update_invalidation (currentUser : Option User) (row : Lead)
    (now : Int) (s : Ctx) (leadId : String) (updates : LeadUpdates) (existing : Lead)
    (h1 : s.leads.find? (fun l => l.id == leadId) = some existing)
    (h2 : hasPermission currentUser Action.edit (some existing) = true) :
    ((updateLead currentUser true (Except.ok row) now s leadId updates).2.leadsCache
      = mapDelete s.leadsCache ("lead_" ++ leadId))
  ∧ (∀ fs : Filters,
      mapGet (updateLead currentUser true (Except.ok row) now s leadId
          updates).2.leadsCache (jsonStringifyObj fs)
        = mapGet s.leadsCache (jsonStringifyObj fs)) := by
  have hc : (updateLead currentUser true (Except.ok row) now s leadId
      updates).2.leadsCache = mapDelete s.leadsCache ("lead_" ++ leadId) := by
    unfold updateLead
    rw [h1]
    simp [h2]
  refine ⟨hc, fun fs => ?_⟩
  rw [hc]
  exact mapGet_mapDelete_ne s.leadsCache ("lead_" ++ leadId) (jsonStringifyObj fs)
    (jsonKey_ne_leadKey fs leadId)

/-- Witness for the amended C3 on the counterexample state: the surviving
cache is exactly the old one minus `lead_L9`, and the `{}` list entry is still
found. -/
theorem spec_c3_update_invalidation_witness :
    ((updateLead (some sampleAdmin) true (Except.ok c3LeadNew) 500 c3Ctx "L9"
        ⟨none, none, none, some "Qualified", none, none, none, none⟩).2.leadsCache
      = mapDelete c3Ctx.leadsCache ("lead_" ++ "L9"))
  ∧ (mapGet (updateLead (some sampleAdmin) true (Except.ok c3LeadNew) 500 c3Ctx "L9"
        ⟨none, none, none, some "Qualified", none, none, none, none⟩).2.leadsCache
        (jsonStringifyObj [])
      = mapGet c3Ctx.leadsCache (jsonStringifyObj [])) := by
  have h := spec_c3_update_invalidation (some sampleAdmin) c3LeadNew 500 c3Ctx "L9"
    ⟨none, none, none, some "Qualified", none, none, none, none⟩ c3LeadOld
    (by decide) (by decide)
  exact ⟨h.1, h.2 []⟩

/-- The pre-existing contact of the C5 scenario, owned by lead `L1`. -/
def c5Contact : Contact := ⟨"c1", "L1", "Nina", none, none, none, none, "u1", 0, 0⟩

/-- C5 scenario state: one lead `L1` (assigned to `u1`) with one contact. -/
def c5Ctx : Ctx := { emptyCtx with leads := [leadU1], contacts := [c5Contact] }

/-- The contact payload added in the C5 scenario. -/
def c5Input : ContactInput := ⟨"L1", "Paul", none, none, none, none, "u9"⟩

/-- C5 counterexample: the actor `u9` has no `edit` permission on the parent
lead `L1`, yet `addContact` succeeds and prepends the contact, and
`deleteContact` succeeds and removes one — the contact mutations are not
gated on the parent lead's `edit` permission (they never consult the actor). -/
theorem spec_c5_ungated_contacts_cex :
    (hasPermission (some sampleIntern) Action.edit (some leadU1) = false)
  ∧ ((addContact false (Except.ok c5Contact) 7 c5Ctx c5Input).1
      = some (mkMockContact 7 c5Input))
  ∧ ((addContact false (Except.ok c5Contact) 7 c5Ctx c5Input).2.contacts
      = mkMockContact 7 c5Input :: [c5Contact])
  ∧ ((deleteContact false (Except.ok ()) c5Ctx "c1").1 = true)
  ∧ ((deleteContact false (Except.ok ()) c5Ctx "c1").2.contacts = []) := by
  refine ⟨?_, ?_, ?_, ?_, ?_⟩ <;> decide

/-- C5 amended: `addContact`, `updateContact` and `deleteContact` perform no
permission check at all — none of them consults the actor, and each mutates
the contact Record Store unconditionally (prepend, in-place update, filter)
for every input. -/
theorem spec_c5_contacts_ungated (supabaseUp : Bool) (row : Contact)
    (du : Except String Unit) (now : Int) (s : Ctx) (cd : ContactInput)
    (cid : String) (ups : ContactUpdates) :
    ((addContact false (Except.ok row) now s cd).2.contacts
        = mkMockContact now cd :: s.contacts)
  ∧ ((addContact true (Except.ok row) now s cd).2.contacts = row :: s.contacts)
  ∧ ((deleteContact supabaseUp du s cid).2.contacts
        = s.contacts.filter (fun c => c.id != cid))
  ∧ (∀ ex, s.contacts.find? (fun c => c.id == cid) = some ex →
        (updateContact false (Except.ok row) now s cid ups).2.contacts
          = s.contacts.map (fun c =>
              if c.id == cid then applyContactUpdates ex ups now else c)) := by
  refine ⟨by simp [addContact], by simp [addContact], ?_, ?_⟩
  · cases supabaseUp with
    | false => simp [deleteContact]
    | true =>
      cases du with
      | ok u => simp [deleteContact]
      | error m => simp [deleteContact]
  · intro ex hex
    simp only [updateContact, hex]
    simp

/-- Witness for the amended C5 on the concrete scenario state. -/
theorem spec_c5_contacts_ungated_witness :
    ((addContact false (Except.ok c5Contact) 7 c5Ctx c5Input).2.contacts
      = mkMockContact 7 c5Input :: c5Ctx.contacts)
  ∧ ((updateContact false (Except.ok c5Contact) 7 c5Ctx "c1"
        ⟨some "Nina2", none, none, none, none⟩).2.contacts
      = c5Ctx.contacts.map (fun c =>
          if c.id == "c1" then
            applyContactUpdates c5Contact ⟨some "Nina2", none, none, none, none⟩ 7
          else c)) := by
  have h := spec_c5_contacts_ungated false c5Contact (Except.ok ()) 7 c5Ctx c5Input
    "c1" ⟨some "Nina2", none, none, none, none⟩
  exact ⟨h.1, h.2.2.2 c5Contact (by decide)⟩

/-- C8 counterexample: two semantically identical filter objects — the same
key-value pairs in different insertion order, indistinguishable to every field
read the code performs — receive different `JSON.stringify` cache keys. -/
theorem spec_c8_key_not_canonical_cex :
    (List.Perm [("status", "New"), ("assigned_to", "u1")]
        [("assigned_to", "u1"), ("status", "New")])
  ∧ (truthyGet [("status", "New"), ("assigned_to", "u1")] "status"
      = truthyGet [("assigned_to", "u1"), ("status", "New")] "status")
  ∧ (truthyGet [("status", "New"), ("assigned_to", "u1")] "assigned_to"
      = truthyGet [("assigned_to", "u1"), ("status", "New")] "assigned_to")
  ∧ (truthyGet [("status", "New"), ("assigned_to", "u1")] "pipeline_id"
      = truthyGet [("assigned_to", "u1"), ("status", "New")] "pipeline_id")
  ∧ (truthyGet [("status", "New"), ("assigned_to", "u1")] "search"
      = truthyGet [("assigned_to", "u1"), ("status", "New")] "search")
  ∧ ((jsonStringifyObj [("status", "New"), ("assigned_to", "u1")]
      == jsonStringifyObj [("assigned_to", "u1"), ("status", "New")]) = false) := by
  refine ⟨?_, ?_, ?_, ?_, ?_, ?_⟩ <;> decide

/-- C8 amended: the cache key is the plain insertion-ordered serialization of
the filter object, so presenting the same `status`/`assigned_to` pairs in the
opposite key order always yields a different cache key (cache fragmentation),
whatever the filter values are. -/
theorem spec_c8_key_order_sensitive (v1 v2 : String) :
    jsonStringifyObj [("status", v1), ("assigned_to", v2)]
      ≠ jsonStringifyObj [("assigned_to", v2), ("status", v1)] := by
  intro h
  have hd : ('{' :: jsonPairsChars [("status", v1), ("assigned_to", v2)] ++ ['}'])
      = ('{' :: jsonPairsChars [("assigned_to", v2), ("status", v1)] ++ ['}']) :=
    congrArg String.data h
  have e1 : jsonPairsChars [("status", v1), ("assigned_to", v2)]
      = encPairChars "status" v1 ++ ',' :: encPairChars "assigned_to" v2 := rfl
  have e2 : jsonPairsChars [("assigned_to", v2), ("status", v1)]
      = encPairChars "assigned_to" v2 ++ ',' :: encPairChars "status" v1 := rfl
  rw [e1, e2] at hd
  have f1 : ("status" : String).data = ['s', 't', 'a', 't', 'u', 's'] := rfl
  have f2 : ("assigned_to" : String).data
      = ['a', 's', 's', 'i', 'g', 'n', 'e', 'd', '_', 't', 'o'] := rfl
  simp only [encPairChars, f1, f2] at hd
  simp at hd

/-- Witness for the amended C8 at the concrete values of the scenario. -/
theorem spec_c8_key_order_sensitive_witness :
    jsonStringifyObj [("status", "New"), ("assigned_to", "u1")]
      ≠ jsonStringifyObj [("assigned_to", "u1"), ("status", "New")] :=
  spec_c8_key_order_sensitive "New" "u1"

end LeadData
